import Mathlib

/-!
Verification development for the EchoLens customer-support analytics system.

The repository's frontend (TypeScript, under `frontend/src/`) is embedded
directly from its source.  The backend processing core (call pipeline,
transcription and analysis adapters, analytics engine, executive summary
generator) is not part of the available sources; those components are
modelled from the specification, and each such definition carries a doc
comment starting with `Modelled from the spec:`.

Numeric values are modelled as rationals (`ℚ`); counts as naturals.
-/

namespace EchoLens

/-- Trend direction of a topic, spec §4.5: `up`, `down` or `flat`
(frontend type `TopicTrend.trend` in `frontend/src/api.ts`). -/
inductive TrendDir
  | up
  | down
  | flat
  deriving DecidableEq, Repr

/-- Modelled from the spec: §4.5 Weekly Topic Trends (backend analytics
engine, not under the available sources).  Given a topic's weekly counts
(oldest first), compare the two most recent weeks: percentage change is
`(current - previous) / max (previous, 1)`; classify `up` if the change
exceeds 15/100, `down` if it is below -15/100, else `flat`.  With fewer
than 2 weeks of data the result is `flat` with `pct_change = 0`. -/
def classifyTrend (counts : List ℕ) : TrendDir × ℚ :=
  match counts.reverse with
  | current :: previous :: _ =>
    let pct : ℚ := ((current : ℚ) - (previous : ℚ)) / max (previous : ℚ) 1
    (if pct > 15/100 then .up else if pct < -(15/100) then .down else .flat, pct)
  | _ => (.flat, 0)

/-- The measured inputs to escalation risk scoring for one topic,
spec §4.5: negative-sentiment rate, resolution rate and week-over-week
growth. -/
structure RiskInput where
  negative_rate : ℚ
  resolution_rate : ℚ
  growth : ℚ
  deriving DecidableEq, Repr

/-- The kind of a reported escalation-risk driver, spec §4.5. -/
inductive DriverKind
  | negative
  | resolution
  | growth
  deriving DecidableEq, Repr

/-- The additive weight each driver contributes when triggered,
spec §4.5: +0.4 for negative sentiment, +0.3 for low resolution,
+0.3 for week-over-week growth. -/
def driverWeight : DriverKind → ℚ
  | .negative => 4/10
  | .resolution => 3/10
  | .growth => 3/10

/-- Modelled from the spec: §4.5 Escalation Risk Scoring (backend analytics
engine, not under the available sources).  The driver list reports each
triggered condition together with its literal measured value. -/
def riskDrivers (x : RiskInput) : List (DriverKind × ℚ) :=
  (if x.negative_rate > 6/10 then [(DriverKind.negative, x.negative_rate)] else []) ++
  (if x.resolution_rate < 4/10 then [(DriverKind.resolution, x.resolution_rate)] else []) ++
  (if x.growth > 3/10 then [(DriverKind.growth, x.growth)] else [])

/-- Modelled from the spec: §4.5 Escalation Risk Scoring (backend analytics
engine, not under the available sources).  Additive score: +0.4 if
negative_rate > 0.60, +0.3 if resolution_rate < 0.40, +0.3 if growth > 0.30,
clamped to [0, 1]. -/
def riskScore (x : RiskInput) : ℚ :=
  let raw : ℚ :=
    (if x.negative_rate > 6/10 then 4/10 else 0) +
    (if x.resolution_rate < 4/10 then 3/10 else 0) +
    (if x.growth > 3/10 then 3/10 else 0)
  min 1 (max 0 raw)

/-- Sentiment values of an Analysis, spec §3 / frontend `Analysis.sentiment`
in `frontend/src/api.ts`. -/
inductive Sentiment
  | positive
  | neutral
  | negative
  deriving DecidableEq, Repr

/-- Topic values of an Analysis, spec §3 closed enumeration. -/
inductive Topic
  | billing_issue
  | tech_support
  | cancellation
  | shipping
  | other
  deriving DecidableEq, Repr

/-- An Analysis record, spec §3 / frontend `Analysis` in
`frontend/src/api.ts`: sentiment, topic, resolution flag, bounded summary
string, confidence score. -/
structure Analysis where
  sentiment : Sentiment
  topic : Topic
  problem_resolved : Bool
  summary : String
  confidence : ℚ
  deriving DecidableEq, Repr

/-- A raw payload as returned by the language-model provider before
validation: free-form field values, spec §4.3 and §9
(parse-then-validate boundary). -/
structure RawAnalysis where
  sentiment : String
  topic : String
  problem_resolved : Bool
  summary : String
  confidence : ℚ
  deriving DecidableEq, Repr

/-- Parse a sentiment string against the closed enumeration. -/
def parseSentiment : String → Option Sentiment
  | "positive" => some .positive
  | "neutral" => some .neutral
  | "negative" => some .negative
  | _ => none

/-- Parse a topic string against the closed enumeration. -/
def parseTopic : String → Option Topic
  | "billing_issue" => some .billing_issue
  | "tech_support" => some .tech_support
  | "cancellation" => some .cancellation
  | "shipping" => some .shipping
  | "other" => some .other
  | _ => none

/-- Modelled from the spec: §4.3 schema validation of the provider payload
(backend `app/services/analyze.py`, not under the available sources):
enumerations, confidence bound in [0,1], summary length at most 240. -/
def validateAnalysis (raw : RawAnalysis) : Option Analysis :=
  match parseSentiment raw.sentiment, parseTopic raw.topic with
  | some s, some t =>
    if 0 ≤ raw.confidence ∧ raw.confidence ≤ 1 ∧ raw.summary.length ≤ 240 then
      some ⟨s, t, raw.problem_resolved, raw.summary, raw.confidence⟩
    else none
  | _, _ => none

/-- Modelled from the spec: §4.3 the safe default Analysis
(`sentiment=neutral`, `topic=other`, `problem_resolved=false`, a generic
summary, `confidence=0.0`). -/
def safeDefaultAnalysis : Analysis :=
  ⟨.neutral, .other, false, "Analysis unavailable; automated extraction failed.", 0⟩

/-- One provider response: `none` models malformed JSON, `some raw` a parsed
but not yet validated payload.  A provider is a map from the (0-based)
attempt index to its response on that attempt. -/
abbrev AnalysisProvider := ℕ → Option RawAnalysis

/-- Modelled from the spec: §4.3 the bounded retry loop of the analysis
adapter (backend `app/services/analyze.py`, not under the available
sources).  `attempt` is the index of the next provider call, `remaining`
the number of attempts still allowed; returns the Analysis together with
the total number of attempts made. -/
def analyzeLoop (provider : AnalysisProvider) : ℕ → ℕ → Analysis × ℕ
  | attempt, 0 => (safeDefaultAnalysis, attempt)
  | attempt, remaining + 1 =>
    match provider attempt with
    | some raw =>
      match validateAnalysis raw with
      | some a => (a, attempt + 1)
      | none => analyzeLoop provider (attempt + 1) remaining
    | none => analyzeLoop provider (attempt + 1) remaining

/-- Modelled from the spec: §4.3 `analyze(transcript_text) -> Analysis`
(backend `app/services/analyze.py`, not under the available sources).
1 initial attempt plus up to 2 retries with the same input; on exhaustion
the safe default is returned rather than an error.  The second component
is the number of provider attempts made. -/
def analyze (provider : AnalysisProvider) : Analysis × ℕ :=
  analyzeLoop provider 0 3

/-- Lifecycle status of a Call, spec §3:
`PENDING | PROCESSING | DONE | FAILED`. -/
inductive Status
  | pending
  | processing
  | done
  | failed
  deriving DecidableEq, Repr

/-- A Transcript record, spec §3 / frontend `Transcript` in
`frontend/src/api.ts`: raw text and the provider model actually used. -/
structure Transcript where
  text : String
  model : String
  deriving DecidableEq, Repr

/-- A persisted Call together with its value-like children, spec §3. -/
structure CallRecord where
  status : Status
  transcript : Option Transcript
  analysis : Option Analysis
  deriving DecidableEq, Repr

/-- The relational store, the system of record (spec §5): call id to its
persisted record. -/
def PipelineStore : Type := ℕ → Option CallRecord

/-- The store before any call has been enqueued. -/
def emptyStore : PipelineStore := fun _ => none

/-- Overwrite one call's record in the store. -/
def setCall (s : PipelineStore) (id : ℕ) (r : CallRecord) : PipelineStore :=
  fun j => if j = id then some r else s j

/-- Modelled from the spec: §4.1 the pipeline state machine over the
persisted store (backend `app/tasks/process_call.py`, not under the
available sources).  A fresh call is enqueued as `PENDING` with no
children; a worker's exclusive claim moves `PENDING → PROCESSING`; a
successful attempt writes Transcript, Analysis and the `DONE` status in
one atomic step (spec §5: either both child records and `DONE` land
together, or none do); a fatal error moves `PENDING` or `PROCESSING` to
`FAILED` without persisting any child record. -/
inductive Step : PipelineStore → PipelineStore → Prop
  | enqueue (s : PipelineStore) (id : ℕ) (h : s id = none) :
      Step s (setCall s id ⟨.pending, none, none⟩)
  | claim (s : PipelineStore) (id : ℕ) (rec : CallRecord)
      (h : s id = some rec) (hp : rec.status = .pending) :
      Step s (setCall s id { rec with status := .processing })
  | completeDone (s : PipelineStore) (id : ℕ) (rec : CallRecord)
      (t : Transcript) (a : Analysis)
      (h : s id = some rec) (hp : rec.status = .processing) :
      Step s (setCall s id ⟨.done, some t, some a⟩)
  | fail (s : PipelineStore) (id : ℕ) (rec : CallRecord)
      (h : s id = some rec)
      (hp : rec.status = .pending ∨ rec.status = .processing) :
      Step s (setCall s id { rec with status := .failed })

/-- The stores reachable from the empty store by pipeline steps. -/
inductive Reachable : PipelineStore → Prop
  | init : Reachable emptyStore
  | step {s s' : PipelineStore} : Reachable s → Step s s' → Reachable s'

/-- The per-call invariant of claim C1: the status is one of the four
lifecycle states; `DONE` implies both children exist; `FAILED` implies
neither child was persisted in that attempt; and before a terminal
success no child is persisted (no partial write is observable,
spec §4.1/§5/§8). -/
def CallInvariant (r : CallRecord) : Prop :=
  (r.status = .pending ∨ r.status = .processing ∨
    r.status = .done ∨ r.status = .failed) ∧
  (r.status = .done → r.transcript.isSome ∧ r.analysis.isSome) ∧
  (r.status = .failed → r.transcript = none ∧ r.analysis = none) ∧
  (r.status = .pending ∨ r.status = .processing →
    r.transcript = none ∧ r.analysis = none)

/-- The store-wide invariant: every persisted call satisfies
`CallInvariant`. -/
def StoreInvariant (s : PipelineStore) : Prop :=
  ∀ id r, s id = some r → CallInvariant r

/-- Modelled from the spec: §5 the exclusive claim on the
`PENDING → PROCESSING` transition is a conditional status update that only
one concurrent writer can win; it returns whether this writer won,
together with the updated status. -/
def claimCAS : Status → Bool × Status
  | .pending => (true, .processing)
  | s => (false, s)

/-- Modelled from the spec: §5 a set of concurrent `process(call_id)`
invocations on the same call; the atomic conditional updates serialize,
and `runClaims` records each worker's claim outcome in serialization
order. -/
def runClaims : Status → ℕ → List Bool
  | _, 0 => []
  | s, n + 1 =>
    let r := claimCAS s
    r.1 :: runClaims r.2 n

/-- Modelled from the spec: §4.1 a worker that wins the claim performs one
transcription provider call and one analysis provider call; a worker that
loses the claim race performs no provider calls and exits without side
effects. -/
def workerProviderCalls (won : Bool) : ℕ :=
  if won then 2 else 0

/-- The fastest-growing topic of a metrics snapshot with its percentage
change, spec §4.6. -/
structure GrowingTopic where
  topic : String
  pct_change : ℚ
  deriving DecidableEq, Repr

/-- The most-negative topic of a metrics snapshot with its negative
rate, spec §4.6. -/
structure NegativeTopic where
  topic : String
  negative_rate : ℚ
  deriving DecidableEq, Repr

/-- Modelled from the spec: §4.6 the structured metrics snapshot passed to
the executive summary generator (backend analytics output, not under the
available sources). -/
structure MetricsSnapshot where
  total_calls : ℕ
  fastest_growing_topic : GrowingTopic
  most_negative_topic : NegativeTopic
  overall_negative_rate : ℚ
  deriving DecidableEq, Repr

/-- Render a rate as a whole percentage, e.g. `0.32` as `"32%"`. -/
def formatPct (q : ℚ) : String :=
  toString (round (q * 100)) ++ "%"

/-- The fixed literal fragments of the deterministic fallback template,
spec §4.6; none of them contains a digit, so every figure in the output
comes from the snapshot. -/
def templateLits : List String :=
  ["Call volume this week: ",
   " calls. Fastest growing topic: ",
   " (",
   " week-over-week). Most negative topic: ",
   " negative). Overall negative sentiment rate: ",
   "."]

/-- Modelled from the spec: §4.6 the snapshot facts the deterministic
fallback assembles — each is the rendering of one field of the
snapshot. -/
def fallbackFacts (m : MetricsSnapshot) : List String :=
  [toString m.total_calls,
   m.fastest_growing_topic.topic,
   formatPct m.fastest_growing_topic.pct_change,
   m.most_negative_topic.topic,
   formatPct m.most_negative_topic.negative_rate,
   formatPct m.overall_negative_rate]

/-- Modelled from the spec: §4.6 the ordered pieces of the fixed-form
fallback sentence: fixed literals interleaved with the snapshot facts. -/
def fallbackParts (m : MetricsSnapshot) : List String :=
  ["Call volume this week: ",
   toString m.total_calls,
   " calls. Fastest growing topic: ",
   m.fastest_growing_topic.topic,
   " (",
   formatPct m.fastest_growing_topic.pct_change,
   " week-over-week). Most negative topic: ",
   m.most_negative_topic.topic,
   " (",
   formatPct m.most_negative_topic.negative_rate,
   " negative). Overall negative sentiment rate: ",
   formatPct m.overall_negative_rate,
   "."]

/-- Concatenate the pieces of the template into the summary text. -/
def joinParts : List String → String
  | [] => ""
  | p :: L => p ++ joinParts L

/-- Modelled from the spec: §4.6 the deterministic textual fallback of
`summarize(metrics_snapshot)` (backend executive summary generator, not
under the available sources): a fixed-form sentence assembled only from
the snapshot's facts, no generation. -/
def fallbackSummary (m : MetricsSnapshot) : String :=
  joinParts (fallbackParts m)

/-- The string `pat` occurs as a contiguous substring of `s`. -/
def strContains (s pat : String) : Prop :=
  pat.data <:+: s.data

/-- Outcome of one transcription attempt with one model, spec §4.2/§7:
success with the transcript text, a format-incompatibility error
(unsupported format/parameter), or any other failure class. -/
inductive TranscribeOutcome
  | success (text : String)
  | formatError
  | otherError (msg : String)
  deriving DecidableEq, Repr

/-- A transcription provider: the outcome of attempting a given model on
the audio at hand. -/
abbrev TranscribeProvider := String → TranscribeOutcome

/-- Modelled from the spec: §4.2 `transcribe(audio_bytes, declared_format)
-> (text, model_used)` (backend `app/services/transcribe.py`, not under the
available sources).  Attempt the configured preferred model; only on a
format-incompatibility error fall back exactly once to the baseline model;
any other failure propagates as a fatal error.  Returns the result (text
and the model actually used, or the fatal error) together with the list of
models attempted, in order. -/
def transcribe (provider : TranscribeProvider) (preferred baseline : String) :
    Except String (String × String) × List String :=
  match provider preferred with
  | .success text => (.ok (text, preferred), [preferred])
  | .otherError msg => (.error msg, [preferred])
  | .formatError =>
    match provider baseline with
    | .success text => (.ok (text, baseline), [preferred, baseline])
    | .otherError msg => (.error msg, [preferred, baseline])
    | .formatError => (.error "unsupported audio format", [preferred, baseline])

namespace Frontend

/-- Embedded from `frontend/src/api.ts`, interface `Transcript`. -/
structure Transcript where
  text : String
  model : Option String
  created_at : String
  deriving DecidableEq, Repr

/-- Embedded from `frontend/src/api.ts`, interface `Analysis`. -/
structure Analysis where
  sentiment : String
  topic : String
  problem_resolved : Bool
  summary : String
  confidence : Option ℚ
  created_at : String
  deriving DecidableEq, Repr

/-- Embedded from `frontend/src/api.ts`, interface `CallDetail`. -/
structure CallDetail where
  id : String
  status : String
  created_at : String
  audio_object_key : String
  duration_sec : Option ℚ
  transcript : Option Transcript
  analysis : Option Analysis
  deriving DecidableEq, Repr

/-- Embedded from `frontend/src/api.ts`, interface `EscalationRisk`. -/
structure EscalationRisk where
  topic : String
  risk_score : ℚ
  drivers : List String
  deriving DecidableEq, Repr

/-- Embedded from `frontend/src/api.ts`, interface `TopicTrend`; `trend`
is the union of the strings up, down and flat, kept as a string. -/
structure TopicTrend where
  topic : String
  weekly_counts : List ℚ
  weekly_negative_rates : List ℚ
  trend : String
  pct_change : ℚ
  deriving DecidableEq, Repr

/-- What a card section of the call-detail page renders: either the full
content card or an empty-state message, embedded from
`frontend/src/pages/CallDetail.tsx`. -/
inductive SectionView
  | content (text : String)
  | message (text : String)
  deriving DecidableEq, Repr

/-- Embedded from `frontend/src/pages/CallDetail.tsx` lines 184-276: the
Analysis card shows the analysis when present; otherwise, when the status
is `PROCESSING` or `PENDING` the in-progress message, else the
not-available message. -/
def analysisSection (call : CallDetail) : SectionView :=
  match call.analysis with
  | some a => .content a.summary
  | none =>
    if call.status = "PROCESSING" ∨ call.status = "PENDING" then
      .message "Analysis is still in progress. Please check back later."
    else
      .message "Analysis not available for this call."

/-- Embedded from `frontend/src/pages/CallDetail.tsx` lines 278-335: the
Transcript card, with the analogous empty states. -/
def transcriptSection (call : CallDetail) : SectionView :=
  match call.transcript with
  | some t => .content t.text
  | none =>
    if call.status = "PROCESSING" ∨ call.status = "PENDING" then
      .message "Transcript is still being generated. Please check back later."
    else
      .message "Transcript not available for this call."

/-- The parts of the rendered call-detail page relevant to the empty-state
behaviour. -/
structure RenderedCallDetail where
  callId : String
  statusBadge : String
  analysisCard : SectionView
  transcriptCard : SectionView
  deriving DecidableEq, Repr

/-- Embedded from `frontend/src/pages/CallDetail.tsx`, component
`CallDetailPage` (the non-loading, non-error branch): a total rendering
function — the page always renders. -/
def renderCallDetail (call : CallDetail) : RenderedCallDetail :=
  ⟨call.id, call.status, analysisSection call, transcriptSection call⟩

/-- Embedded from `frontend/src/pages/Dashboard.tsx` lines 215-217:
`filterRisk ? escalationRisks.filter(r => r.risk_score >= 0.6)
: escalationRisks`. -/
def filteredEscalationRisks (filterRisk : Bool)
    (escalationRisks : List EscalationRisk) : List EscalationRisk :=
  if filterRisk then
    escalationRisks.filter (fun r => 6/10 ≤ r.risk_score)
  else
    escalationRisks

/-- Embedded from `frontend/src/pages/Dashboard.tsx` / `CallDetail.tsx`,
`formatTopicName`: capitalize the first character of a word (JavaScript
`w.charAt(0).toUpperCase() + w.slice(1)`). -/
def capitalizeWord (w : String) : String :=
  match w.data with
  | [] => ""
  | c :: cs => String.mk (c.toUpper :: cs)

/-- Embedded from `frontend/src/pages/Dashboard.tsx` lines 141-145:
split the topic on underscores, capitalize each word, join with
spaces. -/
def formatTopicName (topic : String) : String :=
  String.intercalate " " ((topic.splitOn "_").map capitalizeWord)

/-- JavaScript `x || 0` on an optionally-present number: 0 when the entry
is missing or falsy (zero), else the value. -/
def jsOr0 : Option ℚ → ℚ
  | none => 0
  | some v => if v = 0 then 0 else v

/-- The trend chart's view toggle, embedded from
`frontend/src/pages/Dashboard.tsx` (`trendView` state):
volume or negative %. -/
inductive TrendView
  | volume
  | negative
  deriving DecidableEq, Repr

/-- One chart data point, embedded from `prepareTrendChartData` in
`frontend/src/pages/Dashboard.tsx`: the week label and, per topic in
order, the series key (formatted topic name) and the plotted value. -/
structure ChartPoint where
  week : String
  values : List (String × ℚ)
  deriving DecidableEq, Repr

/-- Embedded from `frontend/src/pages/Dashboard.tsx` lines 188-196: the
value plotted for one topic at week index `i`.  In volume view
`weekly_counts[i] || 0`; in negative view
`weekly_negative_rates[i] ? Number((rate * 100).toFixed(1)) : 0`
(`toFixed(1)` modelled as rounding to one decimal place). -/
def chartValue (view : TrendView) (t : TopicTrend) (i : ℕ) : ℚ :=
  match view with
  | .volume => jsOr0 t.weekly_counts[i]?
  | .negative =>
    match t.weekly_negative_rates[i]? with
    | none => 0
    | some r => if r = 0 then 0 else (round (r * 100 * 10) : ℚ) / 10

/-- Embedded from `frontend/src/pages/Dashboard.tsx` lines 182-200,
`prepareTrendChartData`: empty input yields no data; otherwise one point
per week index up to the maximum `weekly_counts` length across topics,
each point carrying a value per topic. -/
def prepareTrendChartData (view : TrendView)
    (topicTrends : List TopicTrend) : List ChartPoint :=
  if topicTrends.length = 0 then []
  else
    let maxWeeks := (topicTrends.map (fun t => t.weekly_counts.length)).foldr max 0
    (List.range maxWeeks).map (fun i =>
      { week := "Week " ++ toString (i + 1),
        values := topicTrends.map
          (fun t => (formatTopicName t.topic, chartValue view t i)) })

end Frontend

end EchoLens

namespace EchoLens

/-- C3: the topic-trends computation classifies from the two most recent
weekly counts with `pct_change = (current - previous) / max (previous, 1)`
and thresholds +0.15 / -0.15; fewer than 2 weeks yields `flat` with 0.
Counts `[100, 120]` classify `up`, `[100, 90]` give pct_change -0.10 and
classify `flat`, and `[0, 5]` use denominator `max 0 1 = 1` and classify
`up`. -/
theorem classifyTrend_spec :
    (∀ counts : List ℕ, counts.length < 2 → classifyTrend counts = (TrendDir.flat, 0)) ∧
    (∀ (l : List ℕ) (previous current : ℕ),
      classifyTrend (l ++ [previous, current]) =
        (let pct : ℚ := ((current : ℚ) - (previous : ℚ)) / max (previous : ℚ) 1
         (if pct > 15/100 then TrendDir.up
          else if pct < -(15/100) then TrendDir.down else TrendDir.flat, pct))) ∧
    classifyTrend [100, 120] = (TrendDir.up, 20/100) ∧
    classifyTrend [100, 90] = (TrendDir.flat, -(10/100)) ∧
    classifyTrend [0, 5] = (TrendDir.up, 5) := by
  refine ⟨?_, ?_, by norm_num [classifyTrend], by norm_num [classifyTrend],
    by norm_num [classifyTrend]⟩
  · intro counts h
    match counts with
    | [] => rfl
    | [a] => rfl
    | a :: b :: rest => simp at h; omega
  · intro l previous current
    simp [classifyTrend, List.reverse_append]

/-- Witness for `classifyTrend_spec` at concrete inputs. -/
theorem classifyTrend_spec_witness :
    classifyTrend [7] = (TrendDir.flat, 0) ∧
    classifyTrend [3, 100, 120] = (TrendDir.up, 20/100) := by
  obtain ⟨hshort, happ, -, -, -⟩ := classifyTrend_spec
  refine ⟨hshort [7] (by norm_num), ?_⟩
  have h := happ [3] 100 120
  norm_num at h
  rw [h]
  norm_num

/-- C4: the escalation risk score is the clamped sum of exactly the
triggered drivers, each driver is reported with its literal measured value
and no others appear, and the score is reconstructable as the clamped sum
of the reported driver weights; the example
negative_rate = 0.65, resolution_rate = 0.35, growth = 0.10 yields the
negative and resolution drivers and score 0.7. -/
theorem riskScore_spec :
    (∀ x : RiskInput, riskScore x = min 1 (max 0
      ((if x.negative_rate > 6/10 then (4:ℚ)/10 else 0) +
       (if x.resolution_rate < 4/10 then (3:ℚ)/10 else 0) +
       (if x.growth > 3/10 then (3:ℚ)/10 else 0)))) ∧
    (∀ x : RiskInput, 0 ≤ riskScore x ∧ riskScore x ≤ 1) ∧
    (∀ x : RiskInput, ∀ v : ℚ,
      ((DriverKind.negative, v) ∈ riskDrivers x ↔ x.negative_rate > 6/10 ∧ v = x.negative_rate) ∧
      ((DriverKind.resolution, v) ∈ riskDrivers x ↔ x.resolution_rate < 4/10 ∧ v = x.resolution_rate) ∧
      ((DriverKind.growth, v) ∈ riskDrivers x ↔ x.growth > 3/10 ∧ v = x.growth)) ∧
    (∀ x : RiskInput,
      riskScore x = min 1 (max 0 (((riskDrivers x).map (fun d => driverWeight d.1)).sum))) ∧
    riskDrivers ⟨65/100, 35/100, 10/100⟩ =
      [(DriverKind.negative, 65/100), (DriverKind.resolution, 35/100)] ∧
    riskScore ⟨65/100, 35/100, 10/100⟩ = 7/10 := by
  refine ⟨fun x => rfl, ?_, ?_, ?_, by norm_num [riskDrivers], by norm_num [riskScore]⟩
  · intro x
    unfold riskScore
    constructor
    · positivity
    · have h1 : (if x.negative_rate > 6/10 then (4:ℚ)/10 else 0) ≤ 4/10 := by
        split <;> norm_num
      simp only [min_le_iff]
      left
      rfl
  · intro x v
    refine ⟨?_, ?_, ?_⟩ <;>
      · simp only [riskDrivers]
        split <;> split <;> split <;> simp_all
  · intro x
    simp only [riskScore, riskDrivers]
    split <;> split <;> split <;> norm_num [driverWeight]

/-- If every provider response fails schema validation (malformed JSON is
the `none` response), the retry loop consumes all its remaining attempts
and returns the safe default, having made `attempt + remaining` total
attempts. -/
theorem analyzeLoop_all_invalid (provider : AnalysisProvider)
    (h : ∀ n raw, provider n = some raw → validateAnalysis raw = none) :
    ∀ remaining attempt,
      analyzeLoop provider attempt remaining = (safeDefaultAnalysis, attempt + remaining) := by
  intro remaining
  induction remaining with
  | zero => intro attempt; simp [analyzeLoop]
  | succ n ih =>
    intro attempt
    cases hp : provider attempt with
    | none =>
      simp only [analyzeLoop, hp, ih]
      exact Prod.ext rfl (by omega)
    | some raw =>
      simp only [analyzeLoop, hp, h attempt raw hp, ih]
      exact Prod.ext rfl (by omega)

/-- C2: if the language-model provider returns schema-invalid output
(malformed JSON or out-of-schema values) on every attempt, `analyze` makes
exactly 3 total attempts (1 initial + 2 retries) and returns the fixed
safe-default Analysis (sentiment neutral, topic other,
problem_resolved false, a generic summary, confidence 0); being a total
function into `Analysis × ℕ`, it never raises an error to the pipeline. -/
theorem analyze_all_invalid_safe_default (provider : AnalysisProvider)
    (h : ∀ n raw, provider n = some raw → validateAnalysis raw = none) :
    analyze provider = (safeDefaultAnalysis, 3) ∧
    safeDefaultAnalysis.sentiment = Sentiment.neutral ∧
    safeDefaultAnalysis.topic = Topic.other ∧
    safeDefaultAnalysis.problem_resolved = false ∧
    safeDefaultAnalysis.confidence = 0 := by
  refine ⟨?_, rfl, rfl, rfl, rfl⟩
  have := analyzeLoop_all_invalid provider h 3 0
  simpa [analyze] using this

/-- Witness for `analyze_all_invalid_safe_default`: a provider that always
returns malformed JSON. -/
theorem analyze_all_invalid_safe_default_witness :
    analyze (fun _ => none) = (safeDefaultAnalysis, 3) :=
  (analyze_all_invalid_safe_default (fun _ => none)
    (fun _ _ hr => Option.noConfusion hr)).1

/-- C5: `transcribe` first attempts the preferred model; exactly when that
attempt fails with an unsupported-format error it makes one fallback
attempt with the baseline model (a single deterministic hop, never more
than 2 attempts in total); any other failure class is not retried at this
layer and propagates as a fatal error. -/
theorem transcribe_spec (provider : TranscribeProvider) (preferred baseline : String) :
    ((transcribe provider preferred baseline).2 = [preferred, baseline] ↔
      provider preferred = .formatError) ∧
    (provider preferred ≠ .formatError →
      (transcribe provider preferred baseline).2 = [preferred]) ∧
    (transcribe provider preferred baseline).2.length ≤ 2 ∧
    (∀ t, provider preferred = .success t →
      transcribe provider preferred baseline = (.ok (t, preferred), [preferred])) ∧
    (∀ m, provider preferred = .otherError m →
      transcribe provider preferred baseline = (.error m, [preferred])) ∧
    (∀ t, provider preferred = .formatError → provider baseline = .success t →
      transcribe provider preferred baseline = (.ok (t, baseline), [preferred, baseline])) ∧
    (∀ m, provider preferred = .formatError → provider baseline = .otherError m →
      transcribe provider preferred baseline = (.error m, [preferred, baseline])) ∧
    (provider preferred = .formatError → provider baseline = .formatError →
      transcribe provider preferred baseline =
        (.error "unsupported audio format", [preferred, baseline])) := by
  cases hp : provider preferred <;>
    cases hb : provider baseline <;>
      simp [transcribe, hp, hb]

/-- Witness for `transcribe_spec`: a provider for which the preferred model
fails with a format error and the baseline model succeeds; the fallback is
taken exactly once. -/
theorem transcribe_spec_witness :
    transcribe
      (fun m => if m = "whisper-1" then .success "hello" else .formatError)
      "gpt-4o-mini-transcribe" "whisper-1" =
      (.ok ("hello", "whisper-1"), ["gpt-4o-mini-transcribe", "whisper-1"]) :=
  (transcribe_spec
    (fun m => if m = "whisper-1" then .success "hello" else .formatError)
    "gpt-4o-mini-transcribe" "whisper-1").2.2.2.2.2.1 "hello" (by decide) (by decide)

/-- C1: in every reachable store, every persisted Call has a status among
PENDING, PROCESSING, DONE, FAILED; `DONE` implies both a Transcript and an
Analysis exist; `FAILED` implies neither child record was persisted in
that attempt; and the two child records and the `DONE` status are written
by the single atomic `Step.completeDone`, so no partial write is ever
observable. -/
theorem reachable_store_invariant (s : PipelineStore) (hs : Reachable s) :
    StoreInvariant s := by
  induction hs with
  | init => intro id r h; exact Option.noConfusion h
  | step _ hstep ih =>
    cases hstep with
    | enqueue id h =>
      intro j r hj
      by_cases hji : j = id
      · unfold setCall at hj
        rw [if_pos hji] at hj
        injection hj with hr
        subst hr
        simp [CallInvariant]
      · unfold setCall at hj
        rw [if_neg hji] at hj
        exact ih j r hj
    | claim id rec h hp =>
      intro j r hj
      by_cases hji : j = id
      · unfold setCall at hj
        rw [if_pos hji] at hj
        injection hj with hr
        subst hr
        have hold := ih id rec h
        have hchildren := hold.2.2.2 (Or.inl hp)
        simp [CallInvariant, hchildren.1, hchildren.2]
      · unfold setCall at hj
        rw [if_neg hji] at hj
        exact ih j r hj
    | completeDone id rec t a h hp =>
      intro j r hj
      by_cases hji : j = id
      · unfold setCall at hj
        rw [if_pos hji] at hj
        injection hj with hr
        subst hr
        simp [CallInvariant]
      · unfold setCall at hj
        rw [if_neg hji] at hj
        exact ih j r hj
    | fail id rec h hp =>
      intro j r hj
      by_cases hji : j = id
      · unfold setCall at hj
        rw [if_pos hji] at hj
        injection hj with hr
        subst hr
        have hold := ih id rec h
        have hchildren := hold.2.2.2 hp
        simp [CallInvariant, hchildren.1, hchildren.2]
      · unfold setCall at hj
        rw [if_neg hji] at hj
        exact ih j r hj

/-- Witness for `reachable_store_invariant`: a concrete store reached by
enqueuing call 0, claiming it, and completing it atomically; the invariant
holds of the resulting record. -/
theorem reachable_store_invariant_witness :
    CallInvariant ⟨Status.done, some ⟨"hi", "whisper-1"⟩, some safeDefaultAnalysis⟩ := by
  have h0 : Reachable (setCall emptyStore 0 ⟨.pending, none, none⟩) :=
    Reachable.step Reachable.init (Step.enqueue emptyStore 0 rfl)
  have h1 : Reachable (setCall (setCall emptyStore 0 ⟨.pending, none, none⟩) 0
      ⟨.processing, none, none⟩) :=
    Reachable.step h0 (Step.claim _ 0 ⟨.pending, none, none⟩ rfl rfl)
  have h2 : Reachable (setCall (setCall (setCall emptyStore 0 ⟨.pending, none, none⟩) 0
      ⟨.processing, none, none⟩) 0
      ⟨.done, some ⟨"hi", "whisper-1"⟩, some safeDefaultAnalysis⟩) :=
    Reachable.step h1 (Step.completeDone _ 0 ⟨.processing, none, none⟩
      ⟨"hi", "whisper-1"⟩ safeDefaultAnalysis rfl rfl)
  exact reachable_store_invariant _ h2 0 _ rfl

/-- From any non-`PENDING` status, every claim attempt loses. -/
theorem runClaims_not_pending (s : Status) (hs : s ≠ .pending) (n : ℕ) :
    runClaims s n = List.replicate n false := by
  induction n with
  | zero => rfl
  | succ k ih =>
    cases s with
    | pending => exact absurd rfl hs
    | processing => simpa [runClaims, claimCAS, List.replicate_succ] using ih
    | done => simpa [runClaims, claimCAS, List.replicate_succ] using ih
    | failed => simpa [runClaims, claimCAS, List.replicate_succ] using ih

/-- C6: among any number `n ≥ 1` of concurrent `process(call_id)`
invocations on the same `PENDING` call, exactly one worker wins the
exclusive claim on the `PENDING → PROCESSING` transition; every worker
terminates, and the total number of provider calls is 2 (the winner's one
transcription call and one analysis call) — every loser performs zero
provider calls. -/
theorem claim_race_one_winner (n : ℕ) (hn : 1 ≤ n) :
    (runClaims Status.pending n).count true = 1 ∧
    (runClaims Status.pending n).length = n ∧
    ((runClaims Status.pending n).map workerProviderCalls).sum = 2 ∧
    (∀ b ∈ runClaims Status.pending n, b = false → workerProviderCalls b = 0) := by
  obtain ⟨k, rfl⟩ : ∃ k, n = k + 1 := ⟨n - 1, by omega⟩
  have hrun : runClaims Status.pending (k + 1) = true :: List.replicate k false := by
    simp [runClaims, claimCAS, runClaims_not_pending Status.processing (by simp) k]
  refine ⟨?_, ?_, ?_, ?_⟩
  · simp [hrun, List.count_replicate]
  · simp [hrun]
  · rw [hrun]
    simp only [List.map_cons, List.map_replicate, List.sum_cons, workerProviderCalls]
    simp [List.sum_replicate]
  · intro b _ hb
    simp [workerProviderCalls, hb]

/-- Witness for `claim_race_one_winner` at 3 concurrent workers. -/
theorem claim_race_one_winner_witness :
    (runClaims Status.pending 3).count true = 1 ∧
    ((runClaims Status.pending 3).map workerProviderCalls).sum = 2 := by
  obtain ⟨h1, -, h3, -⟩ := claim_race_one_winner 3 (by norm_num)
  exact ⟨h1, h3⟩

/-- The characters of the joined template are the concatenation of the
characters of its pieces. -/
theorem data_joinParts (L : List String) :
    (joinParts L).data = (L.map String.data).flatten := by
  induction L with
  | nil => rfl
  | cons p L ih => simp [joinParts, String.data_append, ih]

/-- Each piece of the template occurs verbatim in the joined output. -/
theorem mem_parts_strContains {p : String} {L : List String} (hp : p ∈ L) :
    strContains (joinParts L) p := by
  unfold strContains
  rw [data_joinParts]
  obtain ⟨u, v, rfl⟩ := List.append_of_mem hp
  exact ⟨(u.map String.data).flatten, (v.map String.data).flatten, by simp⟩

/-- Every piece of the fallback template is either a fixed literal or a
rendered snapshot fact. -/
theorem fallbackParts_split (m : MetricsSnapshot) :
    ∀ p ∈ fallbackParts m, p ∈ templateLits ∨ p ∈ fallbackFacts m := by
  intro p hp
  simp only [fallbackParts, List.mem_cons, List.not_mem_nil, or_false] at hp
  rcases hp with rfl | rfl | rfl | rfl | rfl | rfl | rfl | rfl | rfl | rfl | rfl | rfl | rfl <;>
    simp [templateLits, fallbackFacts]

/-- No fixed literal of the fallback template contains a digit. -/
theorem templateLits_no_digit :
    ∀ s ∈ templateLits, ∀ c ∈ s.data, c.isDigit = false := by
  decide

/-- C7: for a metrics snapshot whose fastest-growing topic is
`billing_issue` with `pct_change = 0.32`, the deterministic fallback
summary contains the literal substring `"32%"` and the topic name, and
every digit in the output comes from a rendered snapshot fact — no figure
absent from the snapshot appears. -/
theorem fallbackSummary_grounded (m : MetricsSnapshot)
    (h : m.fastest_growing_topic = ⟨"billing_issue", 32/100⟩) :
    strContains (fallbackSummary m) "32%" ∧
    strContains (fallbackSummary m) "billing_issue" ∧
    (∀ c ∈ (fallbackSummary m).data, c.isDigit = true →
      ∃ f ∈ fallbackFacts m, c ∈ f.data) := by
  have hpct : formatPct m.fastest_growing_topic.pct_change = "32%" := by
    rw [h]
    show toString (round ((32:ℚ)/100 * 100)) ++ "%" = "32%"
    rw [show round ((32:ℚ)/100 * 100) = 32 by norm_num]
    rfl
  have htop : m.fastest_growing_topic.topic = "billing_issue" := by rw [h]
  refine ⟨?_, ?_, ?_⟩
  · rw [fallbackSummary, ← hpct]
    exact mem_parts_strContains (by simp [fallbackParts])
  · rw [fallbackSummary, ← htop]
    exact mem_parts_strContains (by simp [fallbackParts])
  · intro c hc hdig
    rw [fallbackSummary, data_joinParts] at hc
    obtain ⟨l, hl, hcl⟩ := List.mem_flatten.mp hc
    obtain ⟨p, hp, rfl⟩ := List.mem_map.mp hl
    rcases fallbackParts_split m p hp with hlit | hfact
    · have hnd := templateLits_no_digit p hlit c hcl
      rw [hdig] at hnd
      exact absurd hnd (by simp)
    · exact ⟨p, hfact, hcl⟩

/-- Witness for `fallbackSummary_grounded` at a concrete snapshot. -/
theorem fallbackSummary_grounded_witness :
    strContains
      (fallbackSummary
        ⟨150, ⟨"billing_issue", 32/100⟩, ⟨"tech_support", 65/100⟩, 58/100⟩)
      "32%" :=
  (fallbackSummary_grounded
    ⟨150, ⟨"billing_issue", 32/100⟩, ⟨"tech_support", 65/100⟩, 58/100⟩ rfl).1

/-- C8: a fetched call detail whose status is `FAILED` and whose
transcript and analysis are null renders without crashing
(`renderCallDetail` is total): the call information is shown and the
Analysis and Transcript cards show the not-available empty states; the
in-progress messages appear only when the status is `PENDING` or
`PROCESSING`. -/
theorem callDetail_failed_empty_state (call : Frontend.CallDetail)
    (hs : call.status = "FAILED") (ht : call.transcript = none)
    (ha : call.analysis = none) :
    (Frontend.renderCallDetail call).analysisCard =
      .message "Analysis not available for this call." ∧
    (Frontend.renderCallDetail call).transcriptCard =
      .message "Transcript not available for this call." ∧
    (Frontend.renderCallDetail call).callId = call.id ∧
    (Frontend.renderCallDetail call).statusBadge = "FAILED" ∧
    (∀ e : Frontend.CallDetail,
      (Frontend.renderCallDetail e).analysisCard =
        .message "Analysis is still in progress. Please check back later." →
      e.status = "PROCESSING" ∨ e.status = "PENDING") ∧
    (∀ e : Frontend.CallDetail,
      (Frontend.renderCallDetail e).transcriptCard =
        .message "Transcript is still being generated. Please check back later." →
      e.status = "PROCESSING" ∨ e.status = "PENDING") := by
  refine ⟨?_, ?_, rfl, ?_, ?_, ?_⟩
  · simp [Frontend.renderCallDetail, Frontend.analysisSection, ha, hs]
  · simp [Frontend.renderCallDetail, Frontend.transcriptSection, ht, hs]
  · simp [Frontend.renderCallDetail, hs]
  · intro e he
    simp only [Frontend.renderCallDetail] at he
    unfold Frontend.analysisSection at he
    rcases h1 : e.analysis with _ | a
    · simp only [h1] at he
      by_cases h2 : e.status = "PROCESSING" ∨ e.status = "PENDING"
      · exact h2
      · rw [if_neg h2] at he
        exact absurd he (by decide)
    · simp only [h1] at he
      exact Frontend.SectionView.noConfusion he
  · intro e he
    simp only [Frontend.renderCallDetail] at he
    unfold Frontend.transcriptSection at he
    rcases h1 : e.transcript with _ | t
    · simp only [h1] at he
      by_cases h2 : e.status = "PROCESSING" ∨ e.status = "PENDING"
      · exact h2
      · rw [if_neg h2] at he
        exact absurd he (by decide)
    · simp only [h1] at he
      exact Frontend.SectionView.noConfusion he

/-- Witness for `callDetail_failed_empty_state` at a concrete failed
call. -/
theorem callDetail_failed_empty_state_witness :
    (Frontend.renderCallDetail
      ⟨"c1", "FAILED", "2024-01-01", "upload/c1.wav", none, none, none⟩).analysisCard =
      .message "Analysis not available for this call." :=
  (callDetail_failed_empty_state
    ⟨"c1", "FAILED", "2024-01-01", "upload/c1.wav", none, none, none⟩ rfl rfl rfl).1

/-- C9: when the high-risk filter is on, the escalation-risk list rendered
by the dashboard is exactly the entries with `risk_score ≥ 0.6`, in their
original order (a sublist of the source, keeping every qualifying
occurrence); when the filter is off the list is unchanged — filtering
never mutates the source list, it builds a new one. -/
theorem filteredEscalationRisks_spec (risks : List Frontend.EscalationRisk) :
    Frontend.filteredEscalationRisks false risks = risks ∧
    (Frontend.filteredEscalationRisks true risks).Sublist risks ∧
    (∀ r ∈ Frontend.filteredEscalationRisks true risks, 6/10 ≤ r.risk_score) ∧
    (∀ r : Frontend.EscalationRisk, 6/10 ≤ r.risk_score →
      (Frontend.filteredEscalationRisks true risks).count r = risks.count r) ∧
    (∀ r ∈ risks, 6/10 ≤ r.risk_score →
      r ∈ Frontend.filteredEscalationRisks true risks) := by
  refine ⟨rfl, ?_, ?_, ?_, ?_⟩
  · simp only [Frontend.filteredEscalationRisks, if_pos]
    exact List.filter_sublist risks
  · intro r hr
    simp only [Frontend.filteredEscalationRisks, if_pos, List.mem_filter,
      decide_eq_true_eq] at hr
    exact hr.2
  · intro r hscore
    simp only [Frontend.filteredEscalationRisks, if_pos]
    exact List.count_filter (by simpa using hscore)
  · intro r hr hscore
    simp only [Frontend.filteredEscalationRisks, if_pos, List.mem_filter,
      decide_eq_true_eq]
    exact ⟨hr, hscore⟩

/-- Witness for `filteredEscalationRisks_spec` at a concrete risk list. -/
theorem filteredEscalationRisks_spec_witness :
    Frontend.filteredEscalationRisks false
        [⟨"billing_issue", 7/10, []⟩] = [⟨"billing_issue", 7/10, []⟩] ∧
    (⟨"billing_issue", 7/10, []⟩ : Frontend.EscalationRisk) ∈
      Frontend.filteredEscalationRisks true [⟨"billing_issue", 7/10, []⟩] := by
  obtain ⟨h1, -, -, -, h5⟩ :=
    filteredEscalationRisks_spec [⟨"billing_issue", 7/10, []⟩]
  exact ⟨h1, h5 _ (by simp) (by norm_num)⟩

/-- The plotted chart value equals the claim's description: in volume view
the `weekly_counts` entry (0 when missing), in negative view the
`weekly_negative_rates` entry times 100 rounded to one decimal place
(0 when missing). -/
theorem chartValue_cases (view : Frontend.TrendView) (t : Frontend.TopicTrend) (i : ℕ) :
    Frontend.chartValue view t i =
      (match view with
       | .volume =>
         match t.weekly_counts[i]? with
         | some v => v
         | none => 0
       | .negative =>
         match t.weekly_negative_rates[i]? with
         | some r => (round (r * 100 * 10) : ℚ) / 10
         | none => 0) := by
  cases view with
  | volume =>
    simp only [Frontend.chartValue, Frontend.jsOr0]
    cases t.weekly_counts[i]? with
    | none => rfl
    | some v => by_cases hv : v = 0 <;> simp [hv]
  | negative =>
    simp only [Frontend.chartValue]
    cases t.weekly_negative_rates[i]? with
    | none => rfl
    | some r => by_cases hr : r = 0 <;> simp [hr]

/-- C10: `prepareTrendChartData` returns the empty list for an empty
trends list; for a non-empty one it returns exactly one data point per
week index `i` from 0 up to the maximum `weekly_counts` length minus one,
with week label `Week (i+1)` and, for each topic in order, the volume
value `weekly_counts[i] || 0` or the negative value
`weekly_negative_rates[i] * 100` rounded to one decimal place (0 when the
entry is missing or zero). -/
theorem prepareTrendChartData_spec (view : Frontend.TrendView)
    (topicTrends : List Frontend.TopicTrend) :
    (topicTrends = [] → Frontend.prepareTrendChartData view topicTrends = []) ∧
    (topicTrends ≠ [] →
      (Frontend.prepareTrendChartData view topicTrends).length =
        (topicTrends.map (fun t => t.weekly_counts.length)).foldr max 0 ∧
      ∀ i, i < (topicTrends.map (fun t => t.weekly_counts.length)).foldr max 0 →
        ∀ j, (hj : j < topicTrends.length) →
          ∃ pt : Frontend.ChartPoint,
            (Frontend.prepareTrendChartData view topicTrends)[i]? = some pt ∧
            pt.week = "Week " ++ toString (i + 1) ∧
            pt.values.length = topicTrends.length ∧
            pt.values[j]? = some
              (Frontend.formatTopicName topicTrends[j].topic,
               match view with
               | .volume =>
                 match topicTrends[j].weekly_counts[i]? with
                 | some v => v
                 | none => 0
               | .negative =>
                 match topicTrends[j].weekly_negative_rates[i]? with
                 | some r => (round (r * 100 * 10) : ℚ) / 10
                 | none => 0)) := by
  constructor
  · intro h
    subst h
    rfl
  · intro h
    have hlen0 : ¬ topicTrends.length = 0 := fun hh => h (List.length_eq_zero.mp hh)
    constructor
    · simp [Frontend.prepareTrendChartData, hlen0]
    · intro i hi j hj
      refine ⟨⟨"Week " ++ toString (i + 1),
        topicTrends.map (fun t =>
          (Frontend.formatTopicName t.topic, Frontend.chartValue view t i))⟩,
        ?_, rfl, List.length_map topicTrends _, ?_⟩
      · simp [Frontend.prepareTrendChartData, hlen0, List.getElem?_map,
          List.getElem?_range, hi]
      · rw [List.getElem?_map, List.getElem?_eq_getElem hj]
        simp [chartValue_cases]

/-- Witness for `prepareTrendChartData_spec` at a concrete one-topic
trends list and week index 0. -/
theorem prepareTrendChartData_spec_witness :
    ∃ pt : Frontend.ChartPoint,
      (Frontend.prepareTrendChartData Frontend.TrendView.volume
          [⟨"billing_issue", [1, 2], [], "up", 1⟩])[0]? = some pt ∧
      pt.week = "Week " ++ toString (0 + 1) ∧
      pt.values.length = 1 ∧
      pt.values[0]? = some (Frontend.formatTopicName "billing_issue", 1) := by
  obtain ⟨-, hpoints⟩ :=
    (prepareTrendChartData_spec Frontend.TrendView.volume
      [⟨"billing_issue", [1, 2], [], "up", 1⟩]).2 (by simp)
  obtain ⟨pt, h1, h2, h3, h4⟩ := hpoints 0 (by decide) 0 (by decide)
  exact ⟨pt, h1, h2, by simpa using h3, by simpa using h4⟩

end EchoLens
